import Mathlib

/-!
Verification of the session-liveness and resilient-transport core of the
`tapiwago/dental` front end, as described by its specification.

The development shallowly embeds the relevant source files:

* `src/@fuse/hooks/useInactivityDetection.ts` — the inactivity timer
  state machine (idle timer, warning countdown, dispose/cleanup).
* `src/utils/authFetch.ts` (source file `part_013`) — the credential
  store (`authHeaders.Authorization` plus the persisted
  `jwt_access_token` slot) and the `authFetch` request pipeline.
* `src/@auth/services/jwt/JwtAuthProvider.tsx` — `interceptFetch`
  (credential rotation via the `New-Access-Token` header, 401 teardown)
  and `signIn`/`signOut`.
* `src/app/pages/onboarding/NewCaseDialog.tsx` — the collision-retry
  wrapper `attemptSubmission` around case creation.

Timers and the event loop are modelled as an explicit state machine: a
pending `setTimeout`/`setInterval` handle is a boolean flag, and a timer
callback firing is a step function that is a no-op when the handle was
cleared (matching `clearTimeout`/`clearInterval` semantics, where a
cleared callback never runs).
-/

namespace Dental

/-! ## Inactivity timer (useInactivityDetection.ts)

State of one hook instance.  `isInactive`, `showModal`, `countdownTime`
mirror the three `useState` cells; `idlePending` and `countdownActive`
mirror whether `inactivityTimerRef` / `countdownTimerRef` hold a live
timer handle; `logoutCount` counts invocations of the `onLogout`
callback. -/

structure TimerConfig where
  /-- `countdownTime` option (default 60): warning countdown in seconds. -/
  initialCountdown : Nat
  /-- `enabled` option (default true). -/
  enabled : Bool
deriving DecidableEq

structure TimerState where
  isInactive : Bool
  showModal : Bool
  countdownTime : Nat
  idlePending : Bool
  countdownActive : Bool
  logoutCount : Nat
deriving DecidableEq

/-- `clearTimers` (lines 74-84): clears both timer handles. -/
def clearTimers (s : TimerState) : TimerState :=
  { s with idlePending := false, countdownActive := false }

/-- `startCountdownTimer` (lines 87-103), as invoked when the idle timer
fires: resets `countdownTime` to the configured value and installs the
1-second interval. -/
def startCountdownTimer (cfg : TimerConfig) (s : TimerState) : TimerState :=
  { s with countdownTime := cfg.initialCountdown, countdownActive := true }

/-- `startInactivityTimer` (lines 106-115): when enabled, clears both
timers and arms the idle timeout. -/
def startInactivityTimer (cfg : TimerConfig) (s : TimerState) : TimerState :=
  if cfg.enabled = true then { clearTimers s with idlePending := true } else s

/-- `resetTimer` (lines 118-124). -/
def resetTimer (cfg : TimerConfig) (s : TimerState) : TimerState :=
  if cfg.enabled = true then
    startInactivityTimer cfg { s with isInactive := false, showModal := false }
  else s

/-- `confirmPresence` (lines 127-132). -/
def confirmPresence (cfg : TimerConfig) (s : TimerState) : TimerState :=
  startInactivityTimer cfg
    { clearTimers s with showModal := false, isInactive := false }

/-- `forceLogout` (lines 135-140). -/
def forceLogout (s : TimerState) : TimerState :=
  { clearTimers s with
    showModal := false
    isInactive := true
    logoutCount := s.logoutCount + 1 }

/-- `handleActivity` (lines 143-147): ignored while the modal is shown. -/
def handleActivity (cfg : TimerConfig) (s : TimerState) : TimerState :=
  if s.showModal = true then s else resetTimer cfg s

/-- The idle timeout callback (lines 110-114) firing; a no-op when the
handle was cleared. -/
def idleFire (cfg : TimerConfig) (s : TimerState) : TimerState :=
  if s.idlePending = true then
    startCountdownTimer cfg
      { s with idlePending := false, isInactive := true, showModal := true }
  else s

/-- One tick of the countdown interval (lines 89-102); a no-op when the
handle was cleared.  At `prevTime <= 1` the updater clears the timers,
hides the modal, invokes `onLogout` and returns 0. -/
def countdownTick (s : TimerState) : TimerState :=
  if s.countdownActive = true then
    if s.countdownTime ≤ 1 then
      { clearTimers s with
        showModal := false
        isInactive := true
        countdownTime := 0
        logoutCount := s.logoutCount + 1 }
    else { s with countdownTime := s.countdownTime - 1 }
  else s

/-- The unmount cleanup (lines 163-165, 169-173) runs `clearTimers`. -/
def dispose (s : TimerState) : TimerState := clearTimers s

/-- Timer-callback events: the only things that can fire spontaneously
after the owner stops calling the public operations. -/
inductive TimerEv where
  | tick
  | idle
deriving DecidableEq

def timerEvStep (cfg : TimerConfig) (s : TimerState) : TimerEv → TimerState
  | .tick => countdownTick s
  | .idle => idleFire cfg s

/-- The Warning state of the spec state machine: modal shown, countdown
interval live, idle timer stopped. -/
def inWarning (s : TimerState) : Prop :=
  s.showModal = true ∧ s.countdownActive = true ∧ s.idlePending = false

lemma countdownTick_mid (s : TimerState)
    (hca : s.countdownActive = true) (h2 : 2 ≤ s.countdownTime) :
    countdownTick s = { s with countdownTime := s.countdownTime - 1 } := by
  unfold countdownTick
  rw [if_pos hca, if_neg (by omega)]

lemma countdownTick_inactive (s : TimerState)
    (hca : s.countdownActive = false) : countdownTick s = s := by
  unfold countdownTick
  rw [if_neg (by simp [hca])]

lemma idleFire_inactive (cfg : TimerConfig) (s : TimerState)
    (hip : s.idlePending = false) : idleFire cfg s = s := by
  unfold idleFire
  rw [if_neg (by simp [hip])]

lemma countdownTick_iter_mid :
    ∀ (k : Nat) (s : TimerState), s.countdownActive = true →
      k < s.countdownTime →
      countdownTick^[k] s = { s with countdownTime := s.countdownTime - k }
  | 0, s, _, _ => by simp
  | k + 1, s, hca, hk => by
    rw [Function.iterate_succ_apply, countdownTick_mid s hca (by omega)]
    have h2 : ({ s with countdownTime := s.countdownTime - 1 } :
        TimerState).countdownActive = true := hca
    rw [countdownTick_iter_mid k
      { s with countdownTime := s.countdownTime - 1 } h2 (by simp; omega)]
    have h : s.countdownTime - 1 - k = s.countdownTime - (k + 1) := by omega
    simp [h]

lemma countdown_final (s : TimerState)
    (hca : s.countdownActive = true) (h1 : 1 ≤ s.countdownTime) :
    countdownTick^[s.countdownTime] s =
      { s with
        isInactive := true
        showModal := false
        countdownTime := 0
        idlePending := false
        countdownActive := false
        logoutCount := s.logoutCount + 1 } := by
  obtain ⟨n, hn⟩ : ∃ n, s.countdownTime = n + 1 := ⟨s.countdownTime - 1, by omega⟩
  rw [hn, Function.iterate_succ_apply',
    countdownTick_iter_mid n s hca (by omega)]
  have hone : s.countdownTime - n = 1 := by omega
  rw [hone]
  unfold countdownTick
  rw [if_pos (show ({ s with countdownTime := 1 } :
      TimerState).countdownActive = true from hca), if_pos (by simp)]
  rfl

lemma disposed_step (cfg : TimerConfig) (s : TimerState) (e : TimerEv) :
    timerEvStep cfg (dispose s) e = dispose s := by
  cases e
  · exact countdownTick_inactive _ rfl
  · exact idleFire_inactive cfg _ rfl

/-- Claim C6: for every activity notification delivered while the
Inactivity Timer is in the Warning state (warning modal showing), the
state — in particular `countdownTime` (the remaining seconds) — is
unchanged: the notification is a no-op, never restarts the idle timer
and never dismisses the warning. -/
theorem C6_warning_activity_ignored (cfg : TimerConfig) (s : TimerState)
    (hw : s.showModal = true) : handleActivity cfg s = s := by
  unfold handleActivity
  rw [if_pos hw]

theorem C6_warning_activity_ignored_witness :
    (⟨false, true, 5, false, true, 0⟩ : TimerState).showModal = true ∧
    handleActivity ⟨60, true⟩ ⟨false, true, 5, false, true, 0⟩ =
      ⟨false, true, 5, false, true, 0⟩ :=
  ⟨rfl, C6_warning_activity_ignored ⟨60, true⟩ _ rfl⟩

/-- Claim C7: while in Warning with neither `confirmPresence` nor
`forceLogout` called, `countdownTime` decreases by exactly 1 on each
one-second tick; on the tick where it reaches 0 the sign-out callback
has been invoked exactly once and the state is terminal (modal hidden,
all timers stopped, further ticks are no-ops, no second invocation). -/
theorem C7_warning_countdown (s : TimerState) (c : Nat)
    (hw : s.showModal = true) (hca : s.countdownActive = true)
    (hip : s.idlePending = false) (hc : s.countdownTime = c) (h1 : 1 ≤ c) :
    (∀ k, k < c → (countdownTick^[k] s).countdownTime = c - k ∧
        inWarning (countdownTick^[k] s) ∧
        (countdownTick^[k] s).logoutCount = s.logoutCount) ∧
    ((countdownTick^[c] s).countdownTime = 0 ∧
      (countdownTick^[c] s).showModal = false ∧
      (countdownTick^[c] s).isInactive = true ∧
      (countdownTick^[c] s).idlePending = false ∧
      (countdownTick^[c] s).countdownActive = false ∧
      (countdownTick^[c] s).logoutCount = s.logoutCount + 1) ∧
    (∀ m, countdownTick^[m] (countdownTick^[c] s) = countdownTick^[c] s) := by
  subst hc
  have hfin := countdown_final s hca h1
  refine ⟨?_, ?_, ?_⟩
  · intro k hk
    rw [countdownTick_iter_mid k s hca hk]
    exact ⟨rfl, ⟨hw, hca, hip⟩, rfl⟩
  · rw [hfin]
    exact ⟨rfl, rfl, rfl, rfl, rfl, rfl⟩
  · intro m
    rw [hfin]
    exact Function.iterate_fixed (countdownTick_inactive _ rfl) m

theorem C7_warning_countdown_witness :
    (countdownTick^[3] (⟨false, true, 3, false, true, 0⟩ :
      TimerState)).logoutCount = 1 ∧
    (countdownTick^[3] (⟨false, true, 3, false, true, 0⟩ :
      TimerState)).countdownTime = 0 ∧
    (countdownTick^[2] (⟨false, true, 3, false, true, 0⟩ :
      TimerState)).countdownTime = 1 := by
  have h := C7_warning_countdown ⟨false, true, 3, false, true, 0⟩ 3
    rfl rfl rfl rfl (by norm_num)
  exact ⟨h.2.1.2.2.2.2.2, h.2.1.1, (h.1 2 (by norm_num)).1⟩

/-- Claim C8: `dispose` is idempotent and safe to call in every state:
after `dispose`, no pending idle-timer or countdown-timer callback ever
changes the state (every sequence of timer-callback firings is a no-op),
and a second `dispose` leaves the state unchanged. -/
theorem C8_dispose_idempotent (cfg : TimerConfig) (s : TimerState) :
    dispose (dispose s) = dispose s ∧
    ∀ evs : List TimerEv, evs.foldl (timerEvStep cfg) (dispose s) = dispose s := by
  refine ⟨rfl, ?_⟩
  intro evs
  induction evs with
  | nil => rfl
  | cons e rest ih => rw [List.foldl_cons, disposed_step]; exact ih

/-! ## Credential store and authenticated request pipeline

From `src/utils/authFetch.ts` (source `part_013`) and
`src/@auth/services/jwt/JwtAuthProvider.tsx`.  Of the mutable
`authHeaders` record only its `Authorization` key participates in the
claims under study, so the store is modelled by that key, the persisted
`jwt_access_token` slot and the session flag.  Response bodies that the
pipeline parses are `{ success?, error? }` shaped JSON objects, which is
the shape every body the pipeline itself constructs or inspects has;
a server is free to produce any value of this shape. -/

/-- A first-occurrence substring deletion on character lists, mirroring
the JavaScript `String.replace(pattern, "")` with a string pattern
(used with the non-empty pattern `"Bearer "`). -/
def replaceFirstList (p : List Char) : List Char → List Char
  | [] => []
  | c :: rest =>
    if p.isPrefixOf (c :: rest) then (c :: rest).drop p.length
    else c :: replaceFirstList p rest

/-- `h.replace("Bearer ", "")` for a header value `h`. -/
def replaceFirst (h pat : String) : String :=
  ⟨replaceFirstList pat.data h.data⟩

lemma replaceFirstList_append (p r : List Char) (hp : p ≠ []) :
    replaceFirstList p (p ++ r) = r := by
  match p, hp with
  | c :: cs, _ =>
    show replaceFirstList (c :: cs) ((c :: cs) ++ r) = r
    have hpre : (c :: cs).isPrefixOf ((c :: cs) ++ r) = true := by
      rw [ List.isPrefixOf_iff_prefix]
      exact List.prefix_append _ _
    rw [show ((c :: cs) ++ r) = c :: (cs ++ r) from rfl]
    unfold replaceFirstList
    rw [if_pos (show (c :: cs).isPrefixOf (c :: (cs ++ r)) = true from hpre)]
    exact List.drop_left _ _

lemma replaceFirst_bearer (t : String) :
    replaceFirst ("Bearer " ++ t) "Bearer " = t := by
  unfold replaceFirst
  have hd : ("Bearer " ++ t).data = "Bearer ".data ++ t.data :=
    String.data_append _ _
  rw [hd, replaceFirstList_append _ _ (by decide)]

/-- The globally shared mutable credential state: `authHeaders.Authorization`
(in-memory), the `localStorage` slot `jwt_access_token`, and the session
layer's `isAuthenticated` flag from `JwtAuthProvider`. -/
structure SysState where
  authHeader : Option String
  slot : Option String
  sessionAuthenticated : Bool
deriving DecidableEq

/-- `setAuthToken` (authFetch.ts lines 26-28). -/
def setAuthToken (t : String) (s : SysState) : SysState :=
  { s with authHeader := some ("Bearer " ++ t) }

/-- `removeAuthToken` (authFetch.ts lines 31-33). -/
def removeAuthToken (s : SysState) : SysState :=
  { s with authHeader := none }

/-- `getAuthToken` (authFetch.ts lines 36-44): strip `"Bearer "` from the
in-memory header; if the result is truthy return it, else fall back to
the persisted slot. -/
def getAuthToken (s : SysState) : Option String :=
  match s.authHeader with
  | some h =>
    let headerToken := replaceFirst h "Bearer "
    if headerToken ≠ "" then some headerToken else s.slot
  | none => s.slot

/-- `isAuthenticated` (authFetch.ts lines 58-60): `!!getAuthToken()`
(both `null` and the empty string are falsy). -/
def isAuthenticated (s : SysState) : Bool :=
  match getAuthToken s with
  | some t => t ≠ ""
  | none => false

/-- Parsed `{ success?, error? }` JSON body. -/
structure ErrBody where
  success : Option Bool
  error : Option String
deriving DecidableEq

/-- The body thrown by the client-side `requireAuth` short-circuit
(authFetch.ts lines 75-78). -/
def authRequiredBody : ErrBody := ⟨some false, some "Authentication required"⟩

/-- The fallback body used on network failure or unparseable error body
(authFetch.ts lines 124, 138-141). -/
def networkErrorBody : ErrBody := ⟨some false, some "Network error occurred"⟩

/-- `AuthFetchError` (authFetch.ts lines 9-20); `isAuthError` is derived
from `status` and carries no extra information. -/
structure AuthFetchErrorV where
  status : Nat
  data : ErrBody
deriving DecidableEq

def AuthFetchErrorV.isAuthError (e : AuthFetchErrorV) : Bool :=
  e.status = 401 ∨ e.status = 403

/-- A raw HTTP response as the pipeline observes it: status, the
`New-Access-Token` header, and the JSON parse of its body (`none` when
the body is not parseable JSON). -/
structure RawResp where
  status : Nat
  newAccessToken : Option String
  body : Option ErrBody
deriving DecidableEq

/-- `Response.ok`: status in the 200-299 range. -/
def respOk (r : RawResp) : Bool := 200 ≤ r.status ∧ r.status ≤ 299

/-- The header fields of the request configuration that the pipeline
assembles and hands to `fetch` (authFetch.ts lines 86-93). -/
structure SentReq where
  authorization : Option String
  contentType : Option String
deriving DecidableEq

/-- JavaScript object-spread override: in `{...a, ...b}` a key of `b`
wins; here the first argument is the later (winning) spread. -/
def overrideO (a b : Option String) : Option String :=
  match a with
  | some x => some x
  | none => b

/-- Request options of one `authFetch` call: the `requireAuth` and
`skipGlobalHeaders` flags, the method, and the caller-supplied
`Authorization` / `Content-Type` header entries (which spread last and
win). -/
structure ReqOpts where
  requireAuth : Bool
  skipGlobalHeaders : Bool
  method : String
  callerAuth : Option String
  callerContentType : Option String
deriving DecidableEq

/-- The headers assembled in authFetch.ts lines 81-93:
`{...(method !== GET && contentType), ...(skip ? \x7b\x7d :
{...authHeaders, ...authHeadersToUse}), ...headers}`. -/
def mkConfig (s : SysState) (req : ReqOpts) : SentReq :=
  let authHeadersToUse : Option String :=
    match getAuthToken s with
    | some t => if t ≠ "" then some ("Bearer " ++ t) else none
    | none => none
  { authorization := overrideO req.callerAuth
      (if req.skipGlobalHeaders = true then none
       else overrideO authHeadersToUse s.authHeader)
    contentType := overrideO req.callerContentType
      (if req.method ≠ "GET" then some "application/json" else none) }

/-- `signOut` (JwtAuthProvider.tsx lines 469-477): remove the persisted
slot, remove the in-memory header, mark the session unauthenticated. -/
def signOut (s : SysState) : SysState :=
  { removeAuthToken { s with slot := none } with sessionAuthenticated := false }

/-- The response side of `interceptFetch` (JwtAuthProvider.tsx lines
529-550): first rotate the credential if the `New-Access-Token` header
is present (`setAuthToken` plus `setTokenStorageValue`), then on a 401
run `signOut`; the response itself is passed through unchanged.
`setTokenStorageValue` / `removeTokenStorageValue` come from the
`useLocalStorage` hook whose source is not in the repository.
Modelled from the spec: the persisted credential slot is "a single
string value under a well-known key" written on rotation and removed on
sign-out, so writing sets `slot` and removing clears it. -/
def interceptResponse (s : SysState) (r : RawResp) : SysState :=
  let s1 := match r.newAccessToken with
    | some t => { setAuthToken t s with slot := some t }
    | none => s
  if r.status = 401 then signOut s1 else s1

/-- The monkey-patched `window.fetch`: returns the original response
together with the store side effects. -/
def interceptedFetch (s : SysState) (r : RawResp) : RawResp × SysState :=
  (r, interceptResponse s r)

inductive FetchResult where
  | success (r : RawResp)
  | failure (e : AuthFetchErrorV)
deriving DecidableEq

structure AFOut where
  result : FetchResult
  state : SysState
  sent : List SentReq
deriving DecidableEq

/-- `authFetch` (authFetch.ts lines 63-143), composed with the
`interceptFetch` monkey-patch when `intercepted` is true (the patch is
installed while a session is live and is never uninstalled).  `net` is
the network's behaviour for the single `fetch` this call can make:
`none` means `fetch` threw (transport failure), `some r` means response
`r` arrived.  `sent` records the configurations actually handed to
`fetch`, so its length is the number of network invocations. -/
def authFetch (intercepted : Bool) (s : SysState) (req : ReqOpts)
    (net : Option RawResp) : AFOut :=
  if req.requireAuth = true ∧ isAuthenticated s = false then
    { result := .failure ⟨401, authRequiredBody⟩, state := s, sent := [] }
  else
    let cfg := mkConfig s req
    match net with
    | none => { result := .failure ⟨0, networkErrorBody⟩, state := s, sent := [cfg] }
    | some r =>
      let s1 := if intercepted = true then interceptResponse s r else s
      let s2 := if r.status = 401 then { s1 with authHeader := none, slot := none }
        else s1
      if respOk r = true then { result := .success r, state := s2, sent := [cfg] }
      else
        let errorData := match r.body with
          | some b => b
          | none => networkErrorBody
        { result := .failure ⟨r.status, errorData⟩, state := s2, sent := [cfg] }

/-- Events mutating the shared credential store: a pipeline call (with
its network behaviour) or an explicit sign-in (JwtAuthProvider.tsx
lines 422-428: set session state, persist the token, `setAuthToken`). -/
inductive PipeEvent where
  | call (req : ReqOpts) (net : Option RawResp)
  | signInEv (t : String)
deriving DecidableEq

def pipeStep (s : SysState) : PipeEvent → SysState
  | .call req net => (authFetch true s req net).state
  | .signInEv t =>
    { setAuthToken t { s with slot := some t } with sessionAuthenticated := true }

/-- An event that installs no credential: any call whose response does
not carry the rotated-credential header; a sign-in always installs. -/
def noCredentialInstall : PipeEvent → Bool
  | .call _ none => true
  | .call _ (some r) => r.newAccessToken = none
  | .signInEv _ => false

/-! ## Collision-retry wrapper (NewCaseDialog.tsx)

`attemptSubmission` (lines 163-228) submits the case-creation request
and, when the rejection is a 400 whose body's `error` string contains
`'duplicate key error'`, calls `generateCaseId` and resubmits with
`attempts + 1`, guarded by `attempts < 3`.  A submission attempt's
outcome is the server's decision for that attempt. -/

/-- Outcome of one `onboardingApi.create` submission: success, or a
thrown `AuthFetchError` with `status` and optional `data.error` string. -/
inductive SubmitOutcome where
  | ok
  | reject (status : Nat) (err : Option String)
deriving DecidableEq

/-- Final result of the whole submit flow: success, or the last
rejection surfaced to the caller. -/
inductive SubmitResult where
  | success
  | failure (status : Nat) (err : Option String)
deriving DecidableEq

/-- Whether a character-list contains another as a contiguous infix
(JavaScript `String.includes`). -/
def listContains (p : List Char) : List Char → Bool
  | [] => p.isEmpty
  | c :: rest => p.isPrefixOf (c :: rest) || listContains p rest

/-- The retry guard of line 212: `error.status === 400 &&
error.data?.error && error.data.error.includes('duplicate key error')`
(an absent or empty `error` string is falsy). -/
def isDupError (status : Nat) (err : Option String) : Bool :=
  (status == 400) &&
    match err with
    | some m => (m != "") && listContains "duplicate key error".data m.data
    | none => false

/-- The recursion of `attemptSubmission` (lines 163-228) on the
post-validation path, with explicit fuel bounding the recursion depth
(the guard `attempts < 3` bounds it by 4 from `attempts = 0`; the fuel
passed by `handleSubmitModel` never runs out, see
`attemptSubmission_eq`).  `server` maps the attempt index to that
attempt's outcome.  Returns the result, the number of submissions made,
and the number of `generateCaseId` regenerations performed (one before
each resubmit, line 214). -/
def attemptSubmissionFuel (server : Nat → SubmitOutcome) :
    Nat → Nat → SubmitResult × Nat × Nat
  | 0, _ => (.failure 0 none, 0, 0)
  | fuel + 1, attempts =>
    match server attempts with
    | .ok => (.success, 1, 0)
    | .reject st err =>
      if attempts < 3 ∧ isDupError st err = true then
        let rec1 := attemptSubmissionFuel server fuel (attempts + 1)
        (rec1.1, rec1.2.1 + 1, rec1.2.2 + 1)
      else (.failure st err, 1, 0)

/-- `attemptSubmission server attempts`: fuel `4 - attempts` suffices
because each recursive call increases `attempts` under the guard
`attempts < 3`. -/
def attemptSubmission (server : Nat → SubmitOutcome) (attempts : Nat) :
    SubmitResult × Nat × Nat :=
  attemptSubmissionFuel server (4 - attempts) attempts

/-- `handleSubmit` (line 230) starts at `attempts = 0`. -/
def handleSubmitModel (server : Nat → SubmitOutcome) :
    SubmitResult × Nat × Nat :=
  attemptSubmission server 0

lemma attemptSubmissionFuel_step (server : Nat → SubmitOutcome)
    (fuel attempts : Nat) :
    attemptSubmissionFuel server (fuel + 1) attempts =
      match server attempts with
      | .ok => (.success, 1, 0)
      | .reject st err =>
        if attempts < 3 ∧ isDupError st err = true then
          let rec1 := attemptSubmissionFuel server fuel (attempts + 1)
          (rec1.1, rec1.2.1 + 1, rec1.2.2 + 1)
        else (.failure st err, 1, 0) := rfl

lemma attemptSubmissionFuel_ok (server : Nat → SubmitOutcome)
    (fuel attempts : Nat) (hs : server attempts = .ok) :
    attemptSubmissionFuel server (fuel + 1) attempts = (.success, 1, 0) := by
  rw [attemptSubmissionFuel_step, hs]

lemma attemptSubmissionFuel_reject (server : Nat → SubmitOutcome)
    (fuel attempts st : Nat) (err : Option String)
    (hs : server attempts = .reject st err) :
    attemptSubmissionFuel server (fuel + 1) attempts =
      if attempts < 3 ∧ isDupError st err = true then
        ((attemptSubmissionFuel server fuel (attempts + 1)).1,
          (attemptSubmissionFuel server fuel (attempts + 1)).2.1 + 1,
          (attemptSubmissionFuel server fuel (attempts + 1)).2.2 + 1)
      else (.failure st err, 1, 0) := by
  rw [attemptSubmissionFuel_step, hs]

/-- The fuel is an artifact: any fuel at least `4 - attempts` computes the
same value, so `attemptSubmission` is the recursion of the source. -/
lemma attemptSubmissionFuel_irrel (server : Nat → SubmitOutcome) :
    ∀ (f1 f2 attempts : Nat), attempts ≤ 3 → 4 - attempts ≤ f1 →
      4 - attempts ≤ f2 →
      attemptSubmissionFuel server f1 attempts =
        attemptSubmissionFuel server f2 attempts
  | 0, _, attempts, ha, h1, _ => by omega
  | _ + 1, 0, attempts, ha, _, h2 => by omega
  | g1 + 1, g2 + 1, attempts, ha, h1, h2 => by
    cases hs : server attempts with
    | ok =>
      rw [attemptSubmissionFuel_ok server g1 attempts hs,
        attemptSubmissionFuel_ok server g2 attempts hs]
    | reject st err =>
      rw [attemptSubmissionFuel_reject server g1 attempts st err hs,
        attemptSubmissionFuel_reject server g2 attempts st err hs]
      by_cases hc : attempts < 3 ∧ isDupError st err = true
      · rw [if_pos hc, if_pos hc,
          attemptSubmissionFuel_irrel server g1 g2 (attempts + 1)
            (by omega) (by omega) (by omega)]
      · rw [if_neg hc, if_neg hc]

/-! Claim C2 concerns the `events` option of the hook: the option is
documented in the repository (INACTIVITY_DETECTION.md, "Customize which
events trigger activity detection") and in the option's own doc comment
("Events to track for activity"), but lines 150-155 hard-code the six
default listeners and the destructured option (`_events`, line 62) is
never read. -/

/-- `DEFAULT_EVENTS` (useInactivityDetection.ts line 50). -/
def DEFAULT_EVENTS : List String :=
  ["mousedown", "mousemove", "keypress", "scroll", "touchstart", "click"]

/-- The options record of the hook (lines 4-21). -/
structure InactivityDetectionOptions where
  timeout : Option Nat
  countdownTime : Option Nat
  events : Option (List String)
  enabled : Option Bool
deriving DecidableEq

/-- The signals the hook actually subscribes to: lines 150-155 attach
exactly these six listeners unconditionally; the `events` option is
bound to the unused `_events` (line 62) and never read. -/
def subscribedEvents (_options : InactivityDetectionOptions) : List String :=
  DEFAULT_EVENTS

/-- The behaviour the claim (and the repository's own documentation)
describes: subscribe to the configured events, defaulting to
`DEFAULT_EVENTS` when the option is not supplied. -/
def claimedSubscribedEvents (options : InactivityDetectionOptions) :
    List String :=
  options.events.getD DEFAULT_EVENTS

/-- Claim C2 (code bug, evaluated at the failing input): with the
documentation's own customization example `events = [mousedown,
keypress, touchstart]`, the hook still subscribes to the six-signal
default set, diverging from the claimed behaviour; with the option
absent, code and claim agree on the default set. -/
theorem C2_events_option_ignored :
    subscribedEvents ⟨none, none, some ["mousedown", "keypress", "touchstart"], none⟩ =
      DEFAULT_EVENTS ∧
    claimedSubscribedEvents
        ⟨none, none, some ["mousedown", "keypress", "touchstart"], none⟩ =
      ["mousedown", "keypress", "touchstart"] ∧
    subscribedEvents ⟨none, none, some ["mousedown", "keypress", "touchstart"], none⟩ ≠
      claimedSubscribedEvents
        ⟨none, none, some ["mousedown", "keypress", "touchstart"], none⟩ ∧
    subscribedEvents ⟨none, none, none, none⟩ =
      claimedSubscribedEvents ⟨none, none, none, none⟩ := by
  decide

/-- Claim C1 as stated is false: with a submission stub that rejects
every attempt with a uniqueness violation (HTTP 400, body error
containing `duplicate key error`), the flow makes 4 total submission
attempts, not 3 — the guard `attempts < 3` counts retries, so the
initial attempt plus 3 retries are sent. -/
theorem C1_counterexample :
    (handleSubmitModel
      (fun _ => .reject 400 (some "E11000 duplicate key error collection"))).2.1 = 4 ∧
    ¬ (handleSubmitModel
      (fun _ => .reject 400 (some "E11000 duplicate key error collection"))).2.1 = 3 := by
  decide

/-- Claim C1, amended: when every attempt is rejected with a uniqueness
violation, the flow makes exactly 4 total submission attempts (the
initial attempt plus 3 retries), regenerating the identifier before
each of the 3 resubmits, and surfaces the final (4th) rejection
unchanged; a non-uniqueness rejection on the first attempt results in
exactly one attempt with no regeneration. -/
theorem C1_retry_behaviour (server : Nat → SubmitOutcome)
    (msgs : Nat → String) :
    ((∀ i, i ≤ 3 → server i = .reject 400 (some (msgs i)) ∧
        isDupError 400 (some (msgs i)) = true) →
      handleSubmitModel server = (.failure 400 (some (msgs 3)), 4, 3)) ∧
    (∀ st err, server 0 = .reject st err → isDupError st err = false →
      handleSubmitModel server = (.failure st err, 1, 0)) := by
  constructor
  · intro h
    have h0 := h 0 (by norm_num)
    have h1 := h 1 (by norm_num)
    have h2 := h 2 (by norm_num)
    have h3 := h 3 (by norm_num)
    have e3 : attemptSubmissionFuel server 1 3 =
        (.failure 400 (some (msgs 3)), 1, 0) := by
      rw [show (1 : Nat) = 0 + 1 from rfl,
        attemptSubmissionFuel_reject server 0 3 400 (some (msgs 3)) h3.1,
        if_neg (by simp)]
    have e2 : attemptSubmissionFuel server 2 2 =
        (.failure 400 (some (msgs 3)), 2, 1) := by
      rw [show (2 : Nat) = 1 + 1 from rfl,
        attemptSubmissionFuel_reject server 1 2 400 (some (msgs 2)) h2.1,
        if_pos ⟨by norm_num, h2.2⟩]
      simp [e3]
    have e1 : attemptSubmissionFuel server 3 1 =
        (.failure 400 (some (msgs 3)), 3, 2) := by
      rw [show (3 : Nat) = 2 + 1 from rfl,
        attemptSubmissionFuel_reject server 2 1 400 (some (msgs 1)) h1.1,
        if_pos ⟨by norm_num, h1.2⟩]
      simp [e2]
    show attemptSubmissionFuel server 4 0 = _
    rw [show (4 : Nat) = 3 + 1 from rfl,
      attemptSubmissionFuel_reject server 3 0 400 (some (msgs 0)) h0.1,
      if_pos ⟨by norm_num, h0.2⟩]
    simp [e1]
  · intro st err h0 hnd
    show attemptSubmissionFuel server 4 0 = _
    rw [show (4 : Nat) = 3 + 1 from rfl,
      attemptSubmissionFuel_reject server 3 0 st err h0,
      if_neg (by simp [hnd])]

theorem C1_retry_behaviour_witness :
    handleSubmitModel
        (fun _ => .reject 400 (some "E11000 duplicate key error collection")) =
      (.failure 400 (some "E11000 duplicate key error collection"), 4, 3) ∧
    handleSubmitModel (fun _ => .reject 500 (some "boom")) =
      (.failure 500 (some "boom"), 1, 0) := by
  constructor
  · exact (C1_retry_behaviour
      (fun _ => .reject 400 (some "E11000 duplicate key error collection"))
      (fun _ => "E11000 duplicate key error collection")).1
      (fun i _ => ⟨rfl, by decide⟩)
  · exact (C1_retry_behaviour (fun _ => .reject 500 (some "boom"))
      (fun _ => "")).2 500 (some "boom") rfl (by decide)

/-! ## Pipeline claims -/

/-- Claim C3: a call with `requireAuth` set while no credential is
present (no in-memory `Authorization` header and no persisted token)
fails with the `Unauthenticated` error — `AuthFetchError(401,
authRequiredBody)` thrown before any network activity — leaves the
store untouched, and makes zero network invocations. -/
theorem C3_requireAuth_fail_fast (b : Bool) (s : SysState) (req : ReqOpts)
    (net : Option RawResp) (hA : s.authHeader = none) (hS : s.slot = none)
    (hra : req.requireAuth = true) :
    authFetch b s req net =
      { result := .failure ⟨401, authRequiredBody⟩, state := s, sent := [] } := by
  have hauth : isAuthenticated s = false := by
    simp [isAuthenticated, getAuthToken, hA, hS]
  unfold authFetch
  rw [if_pos ⟨hra, hauth⟩]

theorem C3_requireAuth_fail_fast_witness :
    authFetch false ⟨none, none, false⟩ ⟨true, false, "GET", none, none⟩
        (some ⟨200, none, none⟩) =
      ⟨.failure ⟨401, authRequiredBody⟩, ⟨none, none, false⟩, []⟩ :=
  C3_requireAuth_fail_fast false ⟨none, none, false⟩
    ⟨true, false, "GET", none, none⟩ (some ⟨200, none, none⟩) rfl rfl rfl

/-- Claim C10: when the in-memory header is absent but the persisted
slot holds a (non-empty) token, `getAuthToken` returns the persisted
token, `isAuthenticated` is true, and a `requireAuth` call proceeds —
exactly one network invocation whose configuration attaches
`Bearer <persisted token>` — instead of failing `Unauthenticated`. -/
theorem C10_persisted_token_fallback (b : Bool) (s : SysState) (t : String)
    (req : ReqOpts) (net : Option RawResp)
    (hA : s.authHeader = none) (hS : s.slot = some t) (ht : t ≠ "")
    (hskip : req.skipGlobalHeaders = false) (hca : req.callerAuth = none) :
    getAuthToken s = some t ∧
    isAuthenticated s = true ∧
    (authFetch b s req net).sent = [mkConfig s req] ∧
    (mkConfig s req).authorization = some ("Bearer " ++ t) := by
  have hg : getAuthToken s = some t := by
    simp [getAuthToken, hA, hS]
  have hia : isAuthenticated s = true := by
    simp [isAuthenticated, hg, ht]
  refine ⟨hg, hia, ?_, ?_⟩
  · unfold authFetch
    rw [if_neg (by simp [hia])]
    cases net with
    | none => rfl
    | some r =>
      by_cases hok : respOk r = true
      · simp [hok]
      · simp [hok]
  · simp [mkConfig, hg, ht, hca, hskip, overrideO]

theorem C10_persisted_token_fallback_witness :
    getAuthToken ⟨none, some "tok", false⟩ = some "tok" ∧
    isAuthenticated ⟨none, some "tok", false⟩ = true ∧
    (authFetch false ⟨none, some "tok", false⟩ ⟨true, false, "GET", none, none⟩
        (some ⟨200, none, none⟩)).sent =
      [mkConfig ⟨none, some "tok", false⟩ ⟨true, false, "GET", none, none⟩] ∧
    (mkConfig ⟨none, some "tok", false⟩
        ⟨true, false, "GET", none, none⟩).authorization =
      some ("Bearer " ++ "tok") :=
  C10_persisted_token_fallback false ⟨none, some "tok", false⟩ "tok"
    ⟨true, false, "GET", none, none⟩ (some ⟨200, none, none⟩)
    rfl rfl (by decide) rfl rfl

/-- Claim C4 as stated is false at a 401 response that also carries the
rotated-credential header: `interceptFetch` first installs the new
token but then the 401 branch runs `signOut`, clearing the store — so a
subsequently issued request attaches no credential at all, not the new
one. -/
theorem C4_counterexample :
    (⟨401, some "new", some networkErrorBody⟩ : RawResp).newAccessToken =
      some "new" ∧
    (interceptedFetch ⟨some "Bearer old", some "old", true⟩
        ⟨401, some "new", some networkErrorBody⟩).1 =
      ⟨401, some "new", some networkErrorBody⟩ ∧
    (mkConfig (interceptedFetch ⟨some "Bearer old", some "old", true⟩
          ⟨401, some "new", some networkErrorBody⟩).2
        ⟨false, false, "GET", none, none⟩).authorization = none ∧
    ¬ (mkConfig (interceptedFetch ⟨some "Bearer old", some "old", true⟩
          ⟨401, some "new", some networkErrorBody⟩).2
        ⟨false, false, "GET", none, none⟩).authorization =
      some ("Bearer " ++ "new") := by
  decide

/-- Claim C4, amended: for every non-401 response carrying the
rotated-credential header, the intercepted fetch updates both the
in-memory header and the persisted slot with the new token before
handing the response back unchanged, and every subsequently issued
request (without caller override and without `skipGlobalHeaders`)
attaches the new credential. -/
theorem C4_rotation_before_return (s : SysState) (r : RawResp) (t : String)
    (hrt : r.newAccessToken = some t) (h401 : r.status ≠ 401) :
    (interceptedFetch s r).1 = r ∧
    (interceptedFetch s r).2.authHeader = some ("Bearer " ++ t) ∧
    (interceptedFetch s r).2.slot = some t ∧
    ∀ req : ReqOpts, req.callerAuth = none → req.skipGlobalHeaders = false →
      (mkConfig (interceptedFetch s r).2 req).authorization =
        some ("Bearer " ++ t) := by
  have hstate : (interceptedFetch s r).2 =
      { setAuthToken t s with slot := some t } := by
    simp only [interceptedFetch, interceptResponse, hrt]
    rw [if_neg h401]
  refine ⟨rfl, ?_, ?_, ?_⟩
  · simp [hstate, setAuthToken]
  · simp [hstate]
  · intro req hcA hskip
    rw [hstate]
    by_cases ht : t = ""
    · subst ht
      have hrb : replaceFirst "Bearer " "Bearer " = "" := by decide
      simp [mkConfig, getAuthToken, setAuthToken, hrb, overrideO, hcA, hskip]
    · have hg : getAuthToken { setAuthToken t s with slot := some t } =
          some t := by
        simp [getAuthToken, setAuthToken, replaceFirst_bearer, ht]
      simp [mkConfig, hg, ht, hcA, hskip, overrideO]

theorem C4_rotation_before_return_witness :
    (interceptedFetch ⟨some "Bearer old", some "old", true⟩
        ⟨200, some "new", none⟩).1 = ⟨200, some "new", none⟩ ∧
    (interceptedFetch ⟨some "Bearer old", some "old", true⟩
        ⟨200, some "new", none⟩).2.authHeader = some ("Bearer " ++ "new") ∧
    (interceptedFetch ⟨some "Bearer old", some "old", true⟩
        ⟨200, some "new", none⟩).2.slot = some "new" ∧
    ∀ req : ReqOpts, req.callerAuth = none → req.skipGlobalHeaders = false →
      (mkConfig (interceptedFetch ⟨some "Bearer old", some "old", true⟩
          ⟨200, some "new", none⟩).2 req).authorization =
        some ("Bearer " ++ "new") :=
  C4_rotation_before_return ⟨some "Bearer old", some "old", true⟩
    ⟨200, some "new", none⟩ "new" rfl (by decide)

lemma authFetch_401_state (s : SysState) (req : ReqOpts) (r : RawResp)
    (hnb : ¬(req.requireAuth = true ∧ isAuthenticated s = false))
    (h4 : r.status = 401) :
    (authFetch true s req (some r)).state = ⟨none, none, false⟩ := by
  have hok : respOk r = false := by simp [respOk, h4]
  have hs1 : interceptResponse s r = ⟨none, none, false⟩ := by
    unfold interceptResponse
    rw [if_pos h4]
    cases r.newAccessToken <;> rfl
  unfold authFetch
  rw [if_neg hnb]
  simp [hs1, hok, h4]

lemma cleared_step (s : SysState) (e : PipeEvent) (hA : s.authHeader = none)
    (hS : s.slot = none) (he : noCredentialInstall e = true) :
    (pipeStep s e).authHeader = none ∧ (pipeStep s e).slot = none := by
  cases e with
  | signInEv t => simp [noCredentialInstall] at he
  | call req net =>
    cases net with
    | none =>
      simp only [pipeStep, authFetch]
      split
      · exact ⟨hA, hS⟩
      · exact ⟨hA, hS⟩
    | some r =>
      have hna : r.newAccessToken = none := by
        simpa [noCredentialInstall] using he
      have hs1 : interceptResponse s r = if r.status = 401 then signOut s else s := by
        unfold interceptResponse
        rw [hna]
      simp only [pipeStep, authFetch]
      split
      · exact ⟨hA, hS⟩
      · by_cases h4 : r.status = 401
        · by_cases hok : respOk r = true
          · simp [hok, hs1, h4, signOut, removeAuthToken]
          · simp [hok, hs1, h4, signOut, removeAuthToken]
        · by_cases hok : respOk r = true
          · simp [hok, hs1, h4, hA, hS]
          · simp [hok, hs1, h4, hA, hS]

lemma cleared_foldl (evs : List PipeEvent) :
    ∀ (st : SysState), st.authHeader = none → st.slot = none →
      (∀ e ∈ evs, noCredentialInstall e = true) →
      (evs.foldl pipeStep st).authHeader = none ∧
      (evs.foldl pipeStep st).slot = none := by
  induction evs with
  | nil => intro st h1 h2 _; exact ⟨h1, h2⟩
  | cons e rest ih =>
    intro st h1 h2 hall
    rw [List.foldl_cons]
    have hstep := cleared_step st e h1 h2 (hall e (by simp))
    exact ih _ hstep.1 hstep.2 (fun x hx => hall x (by simp [hx]))

/-- Claim C5 as stated is false: after a 401 clears the store, a later
response carrying the rotated-credential header repopulates the
credential without any sign-in, so the credential does not remain
absent "until a new sign-in".  Here: a 401 response clears the store,
then a 200 response with `New-Access-Token: b` — a pipeline call, not a
sign-in — makes `getAuthToken` return the new token. -/
theorem C5_counterexample :
    (pipeStep ⟨some "Bearer a", some "a", true⟩
        (.call ⟨false, false, "GET", none, none⟩
          (some ⟨401, none, some networkErrorBody⟩))).authHeader = none ∧
    (pipeStep ⟨some "Bearer a", some "a", true⟩
        (.call ⟨false, false, "GET", none, none⟩
          (some ⟨401, none, some networkErrorBody⟩))).slot = none ∧
    getAuthToken
      (pipeStep
        (pipeStep ⟨some "Bearer a", some "a", true⟩
          (.call ⟨false, false, "GET", none, none⟩
            (some ⟨401, none, some networkErrorBody⟩)))
        (.call ⟨false, false, "GET", none, none⟩
          (some ⟨200, some "b", none⟩))) = some "b" := by
  decide

/-- Claim C5, amended: whenever a response with status 401 is received
(on any call that reached the network, with the session interceptor
installed), the pipeline clears the in-memory header and the persisted
slot and signs the session out, and the credential remains absent for
every subsequent read across any further events that install no
credential (no sign-in and no rotated-credential response). -/
theorem C5_401_global_teardown (s : SysState) (req : ReqOpts) (r : RawResp)
    (evs : List PipeEvent)
    (hpr : req.requireAuth = true → isAuthenticated s = true)
    (h4 : r.status = 401)
    (hevs : ∀ e ∈ evs, noCredentialInstall e = true) :
    (authFetch true s req (some r)).state = ⟨none, none, false⟩ ∧
    getAuthToken (evs.foldl pipeStep (authFetch true s req (some r)).state) =
      none := by
  have hnb : ¬(req.requireAuth = true ∧ isAuthenticated s = false) := by
    rintro ⟨hx, hy⟩
    rw [hpr hx] at hy
    exact Bool.noConfusion hy
  have hst := authFetch_401_state s req r hnb h4
  refine ⟨hst, ?_⟩
  rw [hst]
  obtain ⟨hA2, hS2⟩ := cleared_foldl evs ⟨none, none, false⟩ rfl rfl hevs
  simp [getAuthToken, hA2, hS2]

theorem C5_401_global_teardown_witness :
    (authFetch true ⟨some "Bearer a", some "a", true⟩
        ⟨false, false, "GET", none, none⟩
        (some ⟨401, none, some networkErrorBody⟩)).state = ⟨none, none, false⟩ ∧
    getAuthToken
      ([PipeEvent.call ⟨false, false, "GET", none, none⟩
          (some ⟨500, none, none⟩)].foldl pipeStep
        (authFetch true ⟨some "Bearer a", some "a", true⟩
          ⟨false, false, "GET", none, none⟩
          (some ⟨401, none, some networkErrorBody⟩)).state) = none :=
  C5_401_global_teardown ⟨some "Bearer a", some "a", true⟩
    ⟨false, false, "GET", none, none⟩ ⟨401, none, some networkErrorBody⟩
    [PipeEvent.call ⟨false, false, "GET", none, none⟩ (some ⟨500, none, none⟩)]
    (by decide) rfl (by decide)

/-- The three failure conditions of one pipeline call: the client-side
short-circuit, a server rejection, a transport failure (or none when
the call succeeds). -/
inductive ErrKind where
  | unauth
  | rejected
  | transport
deriving DecidableEq

def runKind (s : SysState) (req : ReqOpts) (net : Option RawResp) :
    Option ErrKind :=
  if req.requireAuth = true ∧ isAuthenticated s = false then some .unauth
  else
    match net with
    | none => some .transport
    | some r => if respOk r = true then none else some .rejected

/-- Claim C9 as stated is false: the surfaced error value does not
always determine the failure kind.  A `requireAuth` short-circuit with
no credential and a server rejection with status 401 whose body equals
the fixed short-circuit body surface the very same `AuthFetchError`
value, although the first run makes zero network invocations and the
second makes one. -/
theorem C9_counterexample :
    runKind ⟨none, none, false⟩ ⟨true, false, "GET", none, none⟩ none =
      some .unauth ∧
    runKind ⟨some "Bearer tok", some "tok", true⟩
        ⟨true, false, "GET", none, none⟩
        (some ⟨401, none, some authRequiredBody⟩) = some .rejected ∧
    (authFetch false ⟨none, none, false⟩ ⟨true, false, "GET", none, none⟩
        none).result =
      (authFetch false ⟨some "Bearer tok", some "tok", true⟩
        ⟨true, false, "GET", none, none⟩
        (some ⟨401, none, some authRequiredBody⟩)).result ∧
    (authFetch false ⟨none, none, false⟩ ⟨true, false, "GET", none, none⟩
        none).sent.length = 0 ∧
    (authFetch false ⟨some "Bearer tok", some "tok", true⟩
        ⟨true, false, "GET", none, none⟩
        (some ⟨401, none, some authRequiredBody⟩)).sent.length = 1 := by
  decide

/-- Claim C9, amended: transport failures are distinguishable from the
other two kinds by the surfaced value alone — they carry status 0 while
genuine HTTP responses have status at least 100 and the short-circuit
carries 401 — and the short-circuit always surfaces the fixed
`(401, authRequiredBody)` value; but an `Unauthenticated` short-circuit
is not distinguishable from a server 401 rejection carrying the same
body. -/
theorem C9_error_kind_partial (b : Bool) (s : SysState) (req : ReqOpts)
    (net : Option RawResp) (e : AuthFetchErrorV)
    (hst : ∀ r, net = some r → 100 ≤ r.status)
    (he : (authFetch b s req net).result = .failure e) :
    (runKind s req net = some .transport ↔ e.status = 0) ∧
    (runKind s req net = some .unauth → e = ⟨401, authRequiredBody⟩) := by
  unfold authFetch at he
  unfold runKind
  by_cases hb : req.requireAuth = true ∧ isAuthenticated s = false
  · rw [if_pos hb] at he ⊢
    simp only [FetchResult.failure.injEq] at he
    subst he
    refine ⟨⟨fun h => absurd h (by simp), fun h => absurd h (by decide)⟩,
      fun _ => rfl⟩
  · rw [if_neg hb] at he ⊢
    cases net with
    | none =>
      simp only [FetchResult.failure.injEq] at he
      subst he
      exact ⟨by simp, fun h => absurd h (by simp)⟩
    | some r =>
      have h100 : 100 ≤ r.status := hst r rfl
      by_cases hok : respOk r = true
      · simp [hok] at he
      · rw [Bool.not_eq_true] at hok
        simp only [hok, FetchResult.failure.injEq, Bool.false_eq_true,
          if_false] at he
        subst he
        refine ⟨⟨fun h => absurd h (by simp [hok]), fun h => ?_⟩, fun h => ?_⟩
        · have hs0 : r.status = 0 := h
          exact absurd hs0 (by omega)
        · simp [hok] at h

theorem C9_error_kind_partial_witness :
    (runKind ⟨none, none, false⟩ ⟨false, false, "GET", none, none⟩ none =
        some .transport ↔
      (⟨0, networkErrorBody⟩ : AuthFetchErrorV).status = 0) ∧
    (runKind ⟨none, none, false⟩ ⟨false, false, "GET", none, none⟩ none =
        some .unauth →
      (⟨0, networkErrorBody⟩ : AuthFetchErrorV) = ⟨401, authRequiredBody⟩) :=
  C9_error_kind_partial false ⟨none, none, false⟩
    ⟨false, false, "GET", none, none⟩ none ⟨0, networkErrorBody⟩
    (fun _ h => Option.noConfusion h) rfl

end Dental
